import Mathlib

/-!
Verification of the UBID (Unique Building Identifier) codec from
`buildingid/code.py`.

The codec combines an Open Location Code (Plus Code) for a building's
center point with four decimal extents: `OLC-N-E-S-W`.  Real numbers are
modelled as rationals (`ℚ`); Python's arbitrary-precision `int` is `ℕ`.
The external `openlocationcode` engine (and the repository's
`validators` predicates that merely delegate to it) are abstracted as an
explicit `GridEngine` record of functions; the two coordinate-range
validators, whose meaning the specification fixes, are modelled
concretely.

The anchored, case-insensitive regular expression `RE_PATTERN_` is
embedded as a deterministic recursive-descent matcher.  This is faithful
because every alternation in the pattern has disjoint first character
sets (the code alphabet `23456789CFGHJMPQRVWX` contains neither the
padding character `0` nor the separators `+` and `-`), so Python's
backtracking engine never has more than one viable branch.  Python's `$`
anchor also accepts a single trailing newline, which the matcher
reproduces.
-/

namespace Ubid

/-- Membership in the Open Location Code alphabet `CODE_ALPHABET_`
(`23456789CFGHJMPQRVWX`); the pattern is compiled with `re.IGNORECASE`,
so lowercase letters are accepted as well. -/
def isOlcAlpha (c : Char) : Bool :=
  "23456789CFGHJMPQRVWXcfghjmpqrvwx".toList.contains c

/-- First character class of the pattern: `CODE_ALPHABET_[0:9]`,
case-insensitive. -/
def isOlcFirst (c : Char) : Bool :=
  "23456789Cc".toList.contains c

/-- Second character class of the pattern: `CODE_ALPHABET_[0:18]`,
case-insensitive. -/
def isOlcSecond (c : Char) : Bool :=
  "23456789CFGHJMPQRVcfghjmpqrv".toList.contains c

/-- Split off the maximal run of padding characters `'0'`, returning its
length and the remainder. -/
def splitPad : List Char → Nat × List Char
  | '0' :: rest =>
    let p := splitPad rest
    (p.1 + 1, p.2)
  | l => (0, l)

/-- Split off the maximal run of code-alphabet characters. -/
def splitAlpha : List Char → List Char × List Char
  | [] => ([], [])
  | c :: rest =>
    if isOlcAlpha c then
      let p := splitAlpha rest
      (c :: p.1, p.2)
    else ([], c :: rest)

/-- The optional padding tail `(?:0{2,})?` that may follow the `+`
separator of a padded code.  The group either consumes a run of at least
two zeros or nothing (a run of exactly one zero makes the subsequent
mandatory `-` fail, matching the regex). -/
def parsePadTail (l : List Char) : List Char × List Char :=
  let p := splitPad l
  if 2 ≤ p.1 then (List.replicate p.1 '0', p.2) else ([], l)

/-- The optional tail `(?:0{2,}|[ALPHA]{2,}0*)?` after the `+` separator
of a full (unpadded) 8-character code. -/
def parseFullTail (l : List Char) : List Char × List Char :=
  match l with
  | [] => ([], [])
  | c :: _ =>
    if c = '0' then
      let p := splitPad l
      if 2 ≤ p.1 then (List.replicate p.1 '0', p.2) else ([], l)
    else
      let p := splitAlpha l
      if 2 ≤ p.1.length then
        let q := splitPad p.2
        (p.1 ++ List.replicate q.1 '0', q.2)
      else ([], l)

/-- Innermost alternation of the pattern (after six leading code
characters): `0{2}\+(?:0{2,})?` or `[ALPHA]{2}\+` followed by the full
tail. -/
def level2 : List Char → Option (List Char × List Char)
  | '0' :: '0' :: '+' :: rest =>
    let p := parsePadTail rest
    some ('0' :: '0' :: '+' :: p.1, p.2)
  | a1 :: a2 :: '+' :: rest =>
    if isOlcAlpha a1 && isOlcAlpha a2 then
      let p := parseFullTail rest
      some (a1 :: a2 :: '+' :: p.1, p.2)
    else none
  | _ => none

/-- Middle alternation (after four leading code characters):
`0{4}\+(?:0{2,})?` or two more code characters and `level2`. -/
def level1 : List Char → Option (List Char × List Char)
  | '0' :: '0' :: '0' :: '0' :: '+' :: rest =>
    let p := parsePadTail rest
    some ('0' :: '0' :: '0' :: '0' :: '+' :: p.1, p.2)
  | a1 :: a2 :: rest =>
    if isOlcAlpha a1 && isOlcAlpha a2 then
      (level2 rest).map (fun p => (a1 :: a2 :: p.1, p.2))
    else none
  | _ => none

/-- Outermost alternation (after the first two classified characters):
`0{6}\+(?:0{2,})?` or two more code characters and `level1`. -/
def level0 : List Char → Option (List Char × List Char)
  | '0' :: '0' :: '0' :: '0' :: '0' :: '0' :: '+' :: rest =>
    let p := parsePadTail rest
    some ('0' :: '0' :: '0' :: '0' :: '0' :: '0' :: '+' :: p.1, p.2)
  | a1 :: a2 :: rest =>
    if isOlcAlpha a1 && isOlcAlpha a2 then
      (level1 rest).map (fun p => (a1 :: a2 :: p.1, p.2))
    else none
  | _ => none

/-- Capture group 1 of `RE_PATTERN_`: the embedded Open Location Code
substring.  Returns the consumed grid-code characters and the remainder
of the input. -/
def parseGrid : List Char → Option (List Char × List Char)
  | c1 :: c2 :: rest =>
    if isOlcFirst c1 && isOlcSecond c2 then
      (level0 rest).map (fun p => (c1 :: c2 :: p.1, p.2))
    else none
  | _ => none

/-- Split off the maximal run of decimal digits. -/
def takeDigits : List Char → List Char × List Char
  | [] => ([], [])
  | c :: rest =>
    if c.isDigit then
      let p := takeDigits rest
      (c :: p.1, p.2)
    else ([], c :: rest)

/-- One extent capture group `(0|[1-9][0-9]*)`: either the single digit
`0` or a nonzero digit followed by the maximal run of digits. -/
def parseExtent : List Char → Option (List Char × List Char)
  | [] => none
  | c :: rest =>
    if c = '0' then some (['0'], rest)
    else if c.isDigit then
      let p := takeDigits rest
      some (c :: p.1, p.2)
    else none

/-- The literal UBID separator `-` followed by one extent group. -/
def parseDashExtent : List Char → Option (List Char × List Char)
  | '-' :: rest => parseExtent rest
  | _ => none

/-- The five capture groups of a successful `RE_PATTERN_` match: the
grid-code substring and the four extent digit strings. -/
structure UbidMatch where
  olc : List Char
  north : List Char
  east : List Char
  south : List Char
  west : List Char
deriving DecidableEq, Repr

/-- Full anchored match of `RE_PATTERN_` against a string.  Python's `$`
anchor (without `re.MULTILINE`) also matches just before a single
trailing newline, so a remainder of `"\n"` is accepted. -/
def parseUBID (s : List Char) : Option UbidMatch := do
  let (g, r0) ← parseGrid s
  let (n, r1) ← parseDashExtent r0
  let (e, r2) ← parseDashExtent r1
  let (sth, r3) ← parseDashExtent r2
  let (w, r4) ← parseDashExtent r3
  if r4 = [] ∨ r4 = ['\n'] then pure ⟨g, n, e, sth, w⟩ else none

/-- Python function `buildingid.code.isValid_`: `None` for a `None` argument; otherwise
the pattern match, provided the embedded grid code also passes the Grid
Engine's own validity predicate (`openlocationcode.isValid`), else
`None`.  The engine predicate is a parameter because the engine is an
external collaborator. -/
def isValid_ (olcValid : List Char → Bool) : Option (List Char) → Option UbidMatch
  | none => none
  | some s =>
    match parseUBID s with
    | none => none
    | some m => if olcValid m.olc then some m else none

/-- Python function `buildingid.code.isValid`: `isValid_(code) is not None`. -/
def isValid (olcValid : List Char → Bool) (code : Option (List Char)) : Bool :=
  (isValid_ olcValid code).isSome

/-- The rectangular cell returned by the Grid Engine's decode
(`openlocationcode.CodeArea`), in its constructor's field order. -/
structure Cell where
  latitudeLo : ℚ
  longitudeLo : ℚ
  latitudeHi : ℚ
  longitudeHi : ℚ
  codeLength : ℕ
deriving DecidableEq, Repr

/-- Python class `buildingid.code.CodeArea`: a bounding box together with the center
cell it was derived from.  The Python class extends the engine's area
type and adds the `centroid` attribute; here the inherited bounding-box
fields are laid out alongside it. -/
structure CodeArea where
  centroid : Cell
  latitudeLo : ℚ
  longitudeLo : ℚ
  latitudeHi : ℚ
  longitudeHi : ℚ
  codeLength : ℕ
deriving DecidableEq, Repr

/-- Property `CodeArea.area`: height times width in squared degrees. -/
def CodeArea.area (a : CodeArea) : ℚ :=
  (a.latitudeHi - a.latitudeLo) * (a.longitudeHi - a.longitudeLo)

/-- Method `CodeArea.intersection`: `None` for a `None` argument or when the
clipped latitude or longitude range is strictly inverted; otherwise the
4-tuple `(longitudeLo, latitudeLo, longitudeHi, latitudeHi)` in the
source's return order. -/
def CodeArea.intersection (a : CodeArea) (other : Option CodeArea) :
    Option (ℚ × ℚ × ℚ × ℚ) :=
  match other with
  | none => none
  | some b =>
    let latitudeLo := max a.latitudeLo b.latitudeLo
    let latitudeHi := min a.latitudeHi b.latitudeHi
    let longitudeLo := max a.longitudeLo b.longitudeLo
    let longitudeHi := min a.longitudeHi b.longitudeHi
    if latitudeLo > latitudeHi ∨ longitudeLo > longitudeHi then none
    else some (longitudeLo, latitudeLo, longitudeHi, latitudeHi)

/-- Method `CodeArea.jaccard`: `None` (modelled `Except.ok none`) when the
intersection is `None`; otherwise `area / (a.area + b.area - area)`
where `area = (bbox[3]-bbox[1])*(bbox[2]-bbox[0])`.  Python float
division raises `ZeroDivisionError` on a zero denominator, modelled as
`Except.error`. -/
def CodeArea.jaccard (a : CodeArea) (other : Option CodeArea) :
    Except String (Option ℚ) :=
  match other, a.intersection other with
  | _, none => .ok none
  | none, some _ => .ok none
  | some b, some (lonLo, latLo, lonHi, latHi) =>
    let area := (latHi - latLo) * (lonHi - lonLo)
    if a.area + b.area - area = 0 then
      .error "ZeroDivisionError: float division by zero"
    else
      .ok (some (area / (a.area + b.area - area)))

/-- Method `CodeArea.resize`: a new `CodeArea` shrunk by half the centroid
cell's height and width on every side, keeping the same centroid and
code length. -/
def CodeArea.resize (a : CodeArea) : CodeArea :=
  let halfHeight := (a.centroid.latitudeHi - a.centroid.latitudeLo) / 2
  let halfWidth := (a.centroid.longitudeHi - a.centroid.longitudeLo) / 2
  ⟨a.centroid, a.latitudeLo + halfHeight, a.longitudeLo + halfWidth,
    a.latitudeHi - halfHeight, a.longitudeHi - halfWidth, a.codeLength⟩

/-- Python `int` applied to a decimal digit string (arbitrary
precision). -/
def digitsToNat (ds : List Char) : ℕ :=
  ds.foldl (fun acc c => 10 * acc + (c.toNat - 48)) 0

/-- The external `openlocationcode` engine together with the
repository's `validators` predicates that consume it opaquely
(`isValidCodeArea`, `isValidCodeLength`, `isValidLatitudeCenter`,
`isValidLongitudeCenter` live in `buildingid/validators.py`, which is
not part of the analysed sources; per the specification they are the
collaborator's contract and are abstracted as parameters). -/
structure GridEngine where
  encodeCode : ℚ → ℚ → ℕ → List Char
  decodeCode : List Char → Cell
  isValidCode : List Char → Bool
  isValidCodeArea : Cell → Bool
  isValidCodeLength : ℕ → Bool
  isValidLatitudeCenter : ℚ → ℚ → ℚ → Bool
  isValidLongitudeCenter : ℚ → ℚ → ℚ → Bool

/-- Modelled from the spec: `validators.isValidLatitude` (the module is
not among the analysed sources).  Decoder step 5 requires
`latLo, latHi ∈ [-90, 90]` with `latLo ≤ latHi`. -/
def isValidLatitude (lo hi : ℚ) : Bool :=
  decide (-90 ≤ lo ∧ lo ≤ hi ∧ hi ≤ 90)

/-- Modelled from the spec: `validators.isValidLongitude` (the module is
not among the analysed sources).  Decoder step 5 requires
`lonLo, lonHi ∈ [-180, 180]` with `lonLo ≤ lonHi`. -/
def isValidLongitude (lo hi : ℚ) : Bool :=
  decide (-180 ≤ lo ∧ lo ≤ hi ∧ hi ≤ 180)

/-- Python function `buildingid.code.decode`: reject anything `isValid_` rejects, decode
the embedded grid code to the center cell, check the cell and its
non-negative height and width, then widen the cell by the four parsed
extents.  Python raising (`ValueError` / `AssertionError`) is modelled
as `Except.error`. -/
def decode (E : GridEngine) (code : Option (List Char)) : Except String CodeArea :=
  match isValid_ E.isValidCode code with
  | none => .error "buildingid.code.decode - Invalid code"
  | some m =>
    let c := E.decodeCode m.olc
    if E.isValidCodeArea c = true then
      let height := c.latitudeHi - c.latitudeLo
      if 0 ≤ height then
        let width := c.longitudeHi - c.longitudeLo
        if 0 ≤ width then
          let latitudeLo := c.latitudeLo - (digitsToNat m.south : ℚ) * height
          let latitudeHi := c.latitudeHi + (digitsToNat m.north : ℚ) * height
          if isValidLatitude latitudeLo latitudeHi = true then
            let longitudeLo := c.longitudeLo - (digitsToNat m.west : ℚ) * width
            let longitudeHi := c.longitudeHi + (digitsToNat m.east : ℚ) * width
            if isValidLongitude longitudeLo longitudeHi = true then
              .ok ⟨c, latitudeLo, longitudeLo, latitudeHi, longitudeHi, c.codeLength⟩
            else .error "buildingid.code.decode - Invalid code - Invalid longitude coordinates"
          else .error "buildingid.code.decode - Invalid code - Invalid latitude coordinates"
        else .error "buildingid.code.decode - Invalid code - Negative width"
      else .error "buildingid.code.decode - Invalid code - Negative height"
    else .error "buildingid.code.decode - Invalid code area"

/-- Decimal digit character for `d < 10`. -/
def digitChar (d : ℕ) : Char :=
  match d with
  | 0 => '0' | 1 => '1' | 2 => '2' | 3 => '3' | 4 => '4'
  | 5 => '5' | 6 => '6' | 7 => '7' | 8 => '8' | _ => '9'

/-- Decimal representation of a natural number, most significant digit
first (the digits printed by `'%.0f' %` for an integral value, and by
Python's `int` formatting). -/
def natToDigits (n : ℕ) : List Char :=
  if n < 10 then [digitChar n]
  else natToDigits (n / 10) ++ [digitChar (n % 10)]
decreasing_by exact Nat.div_lt_self (by omega) (by omega)

/-- Round to the nearest integer, ties to even: the rounding performed
by the `'%.0f'` conversion on IEEE doubles, transported to `ℚ`. -/
def roundHalfEven (q : ℚ) : ℤ :=
  let f := ⌊q⌋
  let r := q - (f : ℚ)
  if r < 1/2 then f
  else if 1/2 < r then f + 1
  else if f % 2 = 0 then f else f + 1

/-- One extent as printed by `FORMAT_STRING_ = '%s-%.0f-%.0f-%.0f-%.0f'`
(the encoder asserts each extent is non-negative before formatting, so
the sign is never printed). -/
def fmtExtent (q : ℚ) : List Char :=
  natToDigits (roundHalfEven q).toNat

/-- Python function `buildingid.code.encode`: validate the precondition predicates, pass
the three corner points through the Grid Engine, derive the four
real-valued extents, check each non-negative, and format
`OLC-N-E-S-W`.  `AssertionError` is modelled as `Except.error`. -/
def encode (E : GridEngine) (latitudeLo longitudeLo latitudeHi longitudeHi latitudeCenter longitudeCenter : ℚ)
    (codeLength : ℕ) : Except String (List Char) :=
  if E.isValidCodeLength codeLength = true then
    if E.isValidLatitudeCenter latitudeLo latitudeHi latitudeCenter = true then
      if E.isValidLongitudeCenter longitudeLo longitudeHi longitudeCenter = true then
        let cNE := E.decodeCode (E.encodeCode latitudeHi longitudeHi codeLength)
        if E.isValidCodeArea cNE = true then
          let cSW := E.decodeCode (E.encodeCode latitudeLo longitudeLo codeLength)
          if E.isValidCodeArea cSW = true then
            let olcC := E.encodeCode latitudeCenter longitudeCenter codeLength
            let cC := E.decodeCode olcC
            if E.isValidCodeArea cC = true then
              let height := cC.latitudeHi - cC.latitudeLo
              if 0 ≤ height then
                let width := cC.longitudeHi - cC.longitudeLo
                if 0 ≤ width then
                  let north := (cNE.latitudeHi - cC.latitudeHi) / height
                  if 0 ≤ north then
                    let south := (cC.latitudeLo - cSW.latitudeLo) / height
                    if 0 ≤ south then
                      let east := (cNE.longitudeHi - cC.longitudeHi) / width
                      if 0 ≤ east then
                        let west := (cC.longitudeLo - cSW.longitudeLo) / width
                        if 0 ≤ west then
                          .ok (olcC ++ '-' :: fmtExtent north ++ '-' :: fmtExtent east
                            ++ '-' :: fmtExtent south ++ '-' :: fmtExtent west)
                        else .error "buildingid.code.encode - Negative extent (west)"
                      else .error "buildingid.code.encode - Negative extent (east)"
                    else .error "buildingid.code.encode - Negative extent (south)"
                  else .error "buildingid.code.encode - Negative extent (north)"
                else .error "buildingid.code.encode - Invalid code - Negative width"
              else .error "buildingid.code.encode - Invalid code - Negative height"
            else .error "buildingid.code.encode - Invalid code area (center)"
          else .error "buildingid.code.encode - Invalid code area (southwest)"
        else .error "buildingid.code.encode - Invalid code area (northeast)"
      else .error "buildingid.code.encode - Invalid longitude coordinates"
    else .error "buildingid.code.encode - Invalid latitude coordinates"
  else .error "buildingid.code.encode - Invalid code length"


/-- Degenerate cell used as a placeholder centroid in concrete
examples. -/
def cellZero : Cell := ⟨0, 0, 0, 0, 0⟩

/-- Concrete area with latitude range `[0, 10]` and longitude range
`[20, 30]`. -/
def boxA : CodeArea := ⟨cellZero, 0, 20, 10, 30, 2⟩

/-- Concrete area with latitude range `[2, 8]` and longitude range
`[22, 28]`. -/
def boxB : CodeArea := ⟨cellZero, 2, 22, 8, 28, 2⟩

/-- Concrete zero-area (point) box at latitude 5, longitude 6. -/
def pointBox : CodeArea := ⟨cellZero, 5, 6, 5, 6, 4⟩

/-- Concrete unit box with positive extent in both axes. -/
def unitBox : CodeArea := ⟨cellZero, 0, 0, 1, 1, 4⟩

/-- Concrete area whose centroid cell has height 1 and width 2. -/
def wideArea : CodeArea := ⟨⟨0, 0, 1, 2, 10⟩, -5, -5, 5, 5, 10⟩

/-- Concrete center cell for a mock Grid Engine. -/
def demoCell : Cell := ⟨0, 0, 1/20, 1/20, 8⟩

/-- Mock Grid Engine whose decode always yields `demoCell` and whose
predicates always accept. -/
def demoEngine : GridEngine :=
  ⟨fun _ _ _ => [], fun _ => demoCell, fun _ => true, fun _ => true,
   fun _ => true, fun _ _ _ => true, fun _ _ _ => true⟩

/-- Concrete identifier accepted by the grammar. -/
def demoCode : List Char := "22222222+-1-1-1-1".toList

/-- The capture groups of `demoCode`. -/
def demoMatch : UbidMatch := ⟨"22222222+".toList, ['1'], ['1'], ['1'], ['1']⟩

/-- The area `decode` produces for `demoCode` under `demoEngine`. -/
def demoArea : CodeArea := ⟨demoCell, -(1/20), -(1/20), 1/10, 1/10, 8⟩

/-- A fixed grammatical grid code used to build identifiers with
arbitrary extents. -/
def demoOlc : List Char := ['2', '2', '2', '2', '2', '2', '2', '2', '+']

/-- Identifier `g-n-e-s-w` with the four extents printed in decimal. -/
def mkUbid (g : List Char) (n e s w : ℕ) : List Char :=
  g ++ '-' :: (natToDigits n ++ '-' :: (natToDigits e ++ '-' :: (natToDigits s ++ '-' :: natToDigits w)))

theorem digitsToNat_append (ds : List Char) (c : Char) :
    digitsToNat (ds ++ [c]) = 10 * digitsToNat ds + (c.toNat - 48) := by
  unfold digitsToNat
  rw [List.foldl_append]
  rfl

theorem digitChar_toNat (d : ℕ) (h : d < 10) : (digitChar d).toNat - 48 = d := by
  interval_cases d <;> rfl

theorem digitChar_isDigit (d : ℕ) : (digitChar d).isDigit = true := by
  unfold digitChar
  split <;> rfl

theorem digitsToNat_natToDigits (n : ℕ) : digitsToNat (natToDigits n) = n := by
  induction n using Nat.strong_induction_on with
  | _ n ih =>
    unfold natToDigits
    split_ifs with h
    · show 10 * 0 + ((digitChar n).toNat - 48) = n
      rw [digitChar_toNat n h]
      omega
    · rw [digitsToNat_append, ih (n / 10) (Nat.div_lt_self (by omega) (by omega)),
        digitChar_toNat _ (Nat.mod_lt _ (by omega))]
      omega

theorem natToDigits_digits (n : ℕ) : ∀ c ∈ natToDigits n, c.isDigit = true := by
  induction n using Nat.strong_induction_on with
  | _ n ih =>
    unfold natToDigits
    split_ifs with h
    · intro c hc
      rw [List.mem_singleton] at hc
      subst hc
      exact digitChar_isDigit n
    · intro c hc
      rw [List.mem_append, List.mem_singleton] at hc
      rcases hc with hc | hc
      · exact ih (n / 10) (Nat.div_lt_self (by omega) (by omega)) c hc
      · subst hc
        exact digitChar_isDigit _

theorem natToDigits_head (n : ℕ) (h : 0 < n) :
    ∃ c rest, natToDigits n = c :: rest ∧ c ≠ '0' ∧ c.isDigit = true := by
  induction n using Nat.strong_induction_on with
  | _ n ih =>
    unfold natToDigits
    split_ifs with h10
    · refine ⟨digitChar n, [], rfl, ?_, digitChar_isDigit n⟩
      interval_cases n <;> simp [digitChar]
    · obtain ⟨c, rest, heq, hc0, hcd⟩ :=
        ih (n / 10) (Nat.div_lt_self (by omega) (by omega))
          (Nat.div_pos (by omega) (by omega))
      exact ⟨c, rest ++ [digitChar (n % 10)], by rw [heq]; rfl, hc0, hcd⟩

theorem takeDigits_split (ds rest : List Char) (hds : ∀ c ∈ ds, c.isDigit = true)
    (hrest : ∀ c, rest.head? = some c → c.isDigit = false) :
    takeDigits (ds ++ rest) = (ds, rest) := by
  induction ds with
  | nil =>
    cases rest with
    | nil => rfl
    | cons c r =>
      simp only [List.nil_append]
      unfold takeDigits
      rw [if_neg]
      rw [hrest c rfl]
      exact Bool.false_ne_true
  | cons c ds ih =>
    simp only [List.cons_append]
    unfold takeDigits
    rw [if_pos (hds c (List.mem_cons_self c ds)),
      ih (fun x hx => hds x (List.mem_cons_of_mem c hx))]

theorem parseExtent_natToDigits (n : ℕ) (rest : List Char)
    (hrest : ∀ c, rest.head? = some c → c.isDigit = false) :
    parseExtent (natToDigits n ++ rest) = some (natToDigits n, rest) := by
  rcases Nat.eq_zero_or_pos n with rfl | hn
  · have h0 : natToDigits 0 = ['0'] := by unfold natToDigits; norm_num; rfl
    rw [h0]
    rfl
  · obtain ⟨c, ds, heq, hc0, hcd⟩ := natToDigits_head n hn
    rw [heq]
    simp only [List.cons_append, parseExtent]
    rw [if_neg hc0, if_pos hcd,
      takeDigits_split ds rest (fun x hx => natToDigits_digits n x (by rw [heq]; exact List.mem_cons_of_mem c hx)) hrest]

theorem head_dash_not_digit (l : List Char) :
    ∀ c : Char, (('-' :: l).head? = some c) → c.isDigit = false := by
  intro c h
  injection h with h
  subst h
  rfl

theorem decode_demo : decode demoEngine (some demoCode) = .ok demoArea := by
  have hm : isValid_ demoEngine.isValidCode (some demoCode) = some demoMatch := by decide
  have h1 : digitsToNat ['1'] = 1 := by decide
  unfold decode
  rw [hm]
  norm_num [demoEngine, demoCell, demoArea, demoMatch, h1, isValidLatitude, isValidLongitude,
    Except.ok.injEq, CodeArea.mk.injEq, decide_eq_true_eq]

/-- Claim C1: for every string `s`, `isValid s` is `true` exactly when
`s` matches the UBID grammar (grid code then four dash-separated extent
groups, embedded as `parseUBID`) and the embedded grid-code substring
additionally passes the Grid Engine's semantic validity predicate; a
string failing either check yields `false`. -/
theorem isValid_iff_grammar_and_engine (p : List Char → Bool) (s : List Char) :
    isValid p (some s) = true ↔ ∃ m, parseUBID s = some m ∧ p m.olc = true := by
  unfold isValid isValid_
  cases h : parseUBID s with
  | none => simp [h]
  | some m =>
    by_cases hp : p m.olc <;> simp [h, hp]

/-- Claim C2: whenever the validator accepts the identifier with match
`m`, the embedded grid code decodes to a center cell with non-negative
height and width, and `decode` returns an area, that area's bounding box
is exactly the center cell widened by the four parsed extents
(`latLo = c.latLo - south*h`, `latHi = c.latHi + north*h`,
`lonLo = c.lonLo - west*w`, `lonHi = c.lonHi + east*w`), and its
centroid and code length are those of the decoded grid code. -/
theorem decode_bbox (E : GridEngine) (s : List Char) (m : UbidMatch)
    (hm : isValid_ E.isValidCode (some s) = some m)
    (hh : 0 ≤ (E.decodeCode m.olc).latitudeHi - (E.decodeCode m.olc).latitudeLo)
    (hw : 0 ≤ (E.decodeCode m.olc).longitudeHi - (E.decodeCode m.olc).longitudeLo)
    (area : CodeArea) (hd : decode E (some s) = .ok area) :
    area.centroid = E.decodeCode m.olc ∧
    area.codeLength = (E.decodeCode m.olc).codeLength ∧
    area.latitudeLo = (E.decodeCode m.olc).latitudeLo -
      (digitsToNat m.south : ℚ) *
        ((E.decodeCode m.olc).latitudeHi - (E.decodeCode m.olc).latitudeLo) ∧
    area.latitudeHi = (E.decodeCode m.olc).latitudeHi +
      (digitsToNat m.north : ℚ) *
        ((E.decodeCode m.olc).latitudeHi - (E.decodeCode m.olc).latitudeLo) ∧
    area.longitudeLo = (E.decodeCode m.olc).longitudeLo -
      (digitsToNat m.west : ℚ) *
        ((E.decodeCode m.olc).longitudeHi - (E.decodeCode m.olc).longitudeLo) ∧
    area.longitudeHi = (E.decodeCode m.olc).longitudeHi +
      (digitsToNat m.east : ℚ) *
        ((E.decodeCode m.olc).longitudeHi - (E.decodeCode m.olc).longitudeLo) := by
  unfold decode at hd
  rw [hm] at hd
  dsimp only at hd
  split_ifs at hd
  injection hd with h
  subst h
  exact ⟨rfl, rfl, rfl, rfl, rfl, rfl⟩

/-- Witness for claim C2 at the concrete engine and identifier. -/
theorem decode_bbox_witness :
    demoArea.centroid = demoEngine.decodeCode demoMatch.olc ∧
    demoArea.codeLength = (demoEngine.decodeCode demoMatch.olc).codeLength ∧
    demoArea.latitudeLo = (demoEngine.decodeCode demoMatch.olc).latitudeLo -
      (digitsToNat demoMatch.south : ℚ) *
        ((demoEngine.decodeCode demoMatch.olc).latitudeHi -
          (demoEngine.decodeCode demoMatch.olc).latitudeLo) ∧
    demoArea.latitudeHi = (demoEngine.decodeCode demoMatch.olc).latitudeHi +
      (digitsToNat demoMatch.north : ℚ) *
        ((demoEngine.decodeCode demoMatch.olc).latitudeHi -
          (demoEngine.decodeCode demoMatch.olc).latitudeLo) ∧
    demoArea.longitudeLo = (demoEngine.decodeCode demoMatch.olc).longitudeLo -
      (digitsToNat demoMatch.west : ℚ) *
        ((demoEngine.decodeCode demoMatch.olc).longitudeHi -
          (demoEngine.decodeCode demoMatch.olc).longitudeLo) ∧
    demoArea.longitudeHi = (demoEngine.decodeCode demoMatch.olc).longitudeHi +
      (digitsToNat demoMatch.east : ℚ) *
        ((demoEngine.decodeCode demoMatch.olc).longitudeHi -
          (demoEngine.decodeCode demoMatch.olc).longitudeLo) :=
  decode_bbox demoEngine demoCode demoMatch (by decide)
    (by norm_num [demoEngine, demoCell]) (by norm_num [demoEngine, demoCell])
    demoArea decode_demo

/-- Claim C3 counterexample: the claim says `intersection` returns the
components ordered latitude-first, `(max latLo, max lonLo, min latHi,
min lonHi)`, which at `boxA`/`boxB` would be `(2, 22, 8, 28)`; the code
returns the longitude-first tuple `(22, 2, 28, 8)`. -/
theorem intersection_order_counterexample :
    boxA.intersection (some boxB) = some (22, 2, 28, 8) ∧
    boxA.intersection (some boxB) ≠ some (2, 22, 8, 28) := by
  decide

/-- Claim C3 (amended): whenever `intersection` returns a rectangle, its
components are, in this order, `(max lonLo, max latLo, min lonHi,
min latHi)` — longitude first, as the source returns them. -/
theorem intersection_components_lonFirst (a b : CodeArea) (r : ℚ × ℚ × ℚ × ℚ)
    (h : a.intersection (some b) = some r) :
    r = (max a.longitudeLo b.longitudeLo, max a.latitudeLo b.latitudeLo,
         min a.longitudeHi b.longitudeHi, min a.latitudeHi b.latitudeHi) := by
  unfold CodeArea.intersection at h
  dsimp only at h
  split_ifs at h with hc
  exact (Option.some_inj.mp h).symm

/-- Witness for amended claim C3. -/
theorem intersection_components_lonFirst_witness :
    ((22 : ℚ), (2 : ℚ), (28 : ℚ), (8 : ℚ)) =
      (max boxA.longitudeLo boxB.longitudeLo, max boxA.latitudeLo boxB.latitudeLo,
       min boxA.longitudeHi boxB.longitudeHi, min boxA.latitudeHi boxB.latitudeHi) :=
  intersection_components_lonFirst boxA boxB (22, 2, 28, 8) (by decide)

/-- Claim C4: extents are handled as arbitrary-precision non-negative
integers: an identifier whose four extent groups are the decimal digits
of any naturals, however large, is accepted by the grammar with exactly
those digit strings as capture groups; `int` of the digits recovers each
value exactly (this product is what `decode` multiplies with, with exact
rational arithmetic); and the encoder's `%.0f` formatting of a rounded
extent reparses to exactly the rounded value, for unbounded magnitude. -/
theorem extents_roundtrip_unbounded (n e s w : ℕ) (q : ℚ) :
    parseUBID (mkUbid demoOlc n e s w) =
      some ⟨demoOlc, natToDigits n, natToDigits e, natToDigits s, natToDigits w⟩ ∧
    digitsToNat (natToDigits n) = n ∧ digitsToNat (natToDigits e) = e ∧
    digitsToNat (natToDigits s) = s ∧ digitsToNat (natToDigits w) = w ∧
    digitsToNat (fmtExtent q) = (roundHalfEven q).toNat := by
  refine ⟨?_, digitsToNat_natToDigits n, digitsToNat_natToDigits e,
    digitsToNat_natToDigits s, digitsToNat_natToDigits w, digitsToNat_natToDigits _⟩
  have h1 := parseExtent_natToDigits n
    ('-' :: (natToDigits e ++ '-' :: (natToDigits s ++ '-' :: natToDigits w)))
    (head_dash_not_digit _)
  have h2 := parseExtent_natToDigits e
    ('-' :: (natToDigits s ++ '-' :: natToDigits w)) (head_dash_not_digit _)
  have h3 := parseExtent_natToDigits s ('-' :: natToDigits w) (head_dash_not_digit _)
  have h4 := parseExtent_natToDigits w [] (fun c h => Option.noConfusion h)
  rw [List.append_nil] at h4
  unfold parseUBID mkUbid
  rw [show parseGrid (demoOlc ++ ('-' :: (natToDigits n ++ '-' :: (natToDigits e ++ '-' :: (natToDigits s ++ '-' :: natToDigits w))))) = some (demoOlc, '-' :: (natToDigits n ++ '-' :: (natToDigits e ++ '-' :: (natToDigits s ++ '-' :: natToDigits w)))) from rfl]
  simp only [Option.bind_eq_bind, Option.some_bind, parseDashExtent, h1, h2, h3, h4]
  simp

/-- Claim C5 counterexample: for a zero-area `CodeArea`, `jaccard(a,a)`
divides by `area(a) + area(a) - area(a) = 0` and raises
`ZeroDivisionError` instead of returning 1. -/
theorem jaccard_self_counterexample :
    pointBox.jaccard (some pointBox) =
      Except.error "ZeroDivisionError: float division by zero" ∧
    pointBox.jaccard (some pointBox) ≠ Except.ok (some 1) := by
  have hval : pointBox.jaccard (some pointBox) =
      Except.error "ZeroDivisionError: float division by zero" := by
    unfold CodeArea.jaccard CodeArea.intersection
    norm_num [pointBox, cellZero, CodeArea.area]
  refine ⟨hval, ?_⟩
  rw [hval]
  exact fun hcontra => Except.noConfusion hcontra

/-- Claim C5 (amended): for every `CodeArea` whose bounding box is
non-degenerate (`latLo < latHi` and `lonLo < lonHi`), `jaccard(a,a)`
returns 1. -/
theorem jaccard_self_eq_one (a : CodeArea)
    (h1 : a.latitudeLo < a.latitudeHi) (h2 : a.longitudeLo < a.longitudeHi) :
    a.jaccard (some a) = Except.ok (some 1) := by
  have hint : a.intersection (some a) =
      some (a.longitudeLo, a.latitudeLo, a.longitudeHi, a.latitudeHi) := by
    unfold CodeArea.intersection
    dsimp only
    rw [max_self, min_self, max_self, min_self, if_neg]
    push_neg
    constructor <;> linarith
  have hpos : 0 < a.area := mul_pos (by linarith) (by linarith)
  unfold CodeArea.jaccard
  rw [hint]
  dsimp only
  have harea : (a.latitudeHi - a.latitudeLo) * (a.longitudeHi - a.longitudeLo) = a.area := rfl
  rw [harea, if_neg (by linarith), add_sub_cancel_right, div_self (ne_of_gt hpos)]

/-- Witness for amended claim C5. -/
theorem jaccard_self_eq_one_witness :
    unitBox.jaccard (some unitBox) = Except.ok (some 1) :=
  jaccard_self_eq_one unitBox (by decide) (by decide)

/-- Claim C6: for every two `CodeArea`s, `intersection` returns `None`
exactly when the clipped latitude or longitude range is strictly
inverted (`lo > hi`); exactly-touching boxes (`lo = hi`) therefore yield
a zero-area rectangle, not `None`. -/
theorem intersection_none_iff_strictly_inverted (a b : CodeArea) :
    a.intersection (some b) = none ↔
      (max a.latitudeLo b.latitudeLo > min a.latitudeHi b.latitudeHi ∨
       max a.longitudeLo b.longitudeLo > min a.longitudeHi b.longitudeHi) := by
  unfold CodeArea.intersection
  dsimp only
  split_ifs with h
  · exact iff_of_true rfl h
  · exact iff_of_false (by simp) h

/-- Claim C7: when the centroid cell is well-formed (`latLo ≤ latHi`,
`lonLo ≤ lonHi`), `resize(a)`'s bounding box is contained in `a`'s, and
differs from it unless the centroid cell has zero height and zero
width. -/
theorem resize_contained (a : CodeArea)
    (h1 : a.centroid.latitudeLo ≤ a.centroid.latitudeHi)
    (h2 : a.centroid.longitudeLo ≤ a.centroid.longitudeHi) :
    (a.latitudeLo ≤ a.resize.latitudeLo ∧ a.resize.latitudeHi ≤ a.latitudeHi ∧
     a.longitudeLo ≤ a.resize.longitudeLo ∧ a.resize.longitudeHi ≤ a.longitudeHi) ∧
    (¬(a.centroid.latitudeHi - a.centroid.latitudeLo = 0 ∧
        a.centroid.longitudeHi - a.centroid.longitudeLo = 0) →
      (a.resize.latitudeLo, a.resize.longitudeLo, a.resize.latitudeHi, a.resize.longitudeHi) ≠
        (a.latitudeLo, a.longitudeLo, a.latitudeHi, a.longitudeHi)) := by
  unfold CodeArea.resize
  simp only
  constructor
  · refine ⟨?_, ?_, ?_, ?_⟩ <;> linarith
  · intro hne heq
    apply hne
    simp only [Prod.mk.injEq] at heq
    obtain ⟨e1, e2, e3, e4⟩ := heq
    constructor <;> linarith

/-- Witness for claim C7. -/
theorem resize_contained_witness :
    ((wideArea.latitudeLo ≤ wideArea.resize.latitudeLo ∧
      wideArea.resize.latitudeHi ≤ wideArea.latitudeHi ∧
      wideArea.longitudeLo ≤ wideArea.resize.longitudeLo ∧
      wideArea.resize.longitudeHi ≤ wideArea.longitudeHi) ∧
     (¬(wideArea.centroid.latitudeHi - wideArea.centroid.latitudeLo = 0 ∧
         wideArea.centroid.longitudeHi - wideArea.centroid.longitudeLo = 0) →
       (wideArea.resize.latitudeLo, wideArea.resize.longitudeLo,
        wideArea.resize.latitudeHi, wideArea.resize.longitudeHi) ≠
         (wideArea.latitudeLo, wideArea.longitudeLo, wideArea.latitudeHi, wideArea.longitudeHi))) :=
  resize_contained wideArea (by decide) (by decide)

/-- Claim C8: every area returned by `decode` satisfies the containment
invariant: its bounding box contains its center cell (the parsed extents
are non-negative naturals and the cell dimensions are checked
non-negative before widening). -/
theorem decode_contains_centroid (E : GridEngine) (code : Option (List Char))
    (area : CodeArea) (hd : decode E code = .ok area) :
    area.latitudeLo ≤ area.centroid.latitudeLo ∧
    area.centroid.latitudeLo ≤ area.centroid.latitudeHi ∧
    area.centroid.latitudeHi ≤ area.latitudeHi ∧
    area.longitudeLo ≤ area.centroid.longitudeLo ∧
    area.centroid.longitudeLo ≤ area.centroid.longitudeHi ∧
    area.centroid.longitudeHi ≤ area.longitudeHi := by
  unfold decode at hd
  cases hm : isValid_ E.isValidCode code with
  | none => rw [hm] at hd; exact Except.noConfusion hd
  | some m =>
    rw [hm] at hd
    dsimp only at hd
    split_ifs at hd with hc hht hwt hlat hlon
    injection hd with h
    subst h
    dsimp only
    refine ⟨?_, by linarith, ?_, ?_, by linarith, ?_⟩ <;>
      [skip; skip; skip; skip] <;>
      first
      | exact sub_le_self _ (mul_nonneg (Nat.cast_nonneg _) hht)
      | exact le_add_of_nonneg_right (mul_nonneg (Nat.cast_nonneg _) hht)
      | exact sub_le_self _ (mul_nonneg (Nat.cast_nonneg _) hwt)
      | exact le_add_of_nonneg_right (mul_nonneg (Nat.cast_nonneg _) hwt)

/-- Witness for claim C8 at the concrete engine and identifier. -/
theorem decode_contains_centroid_witness :
    demoArea.latitudeLo ≤ demoArea.centroid.latitudeLo ∧
    demoArea.centroid.latitudeLo ≤ demoArea.centroid.latitudeHi ∧
    demoArea.centroid.latitudeHi ≤ demoArea.latitudeHi ∧
    demoArea.longitudeLo ≤ demoArea.centroid.longitudeLo ∧
    demoArea.centroid.longitudeLo ≤ demoArea.centroid.longitudeHi ∧
    demoArea.centroid.longitudeHi ≤ demoArea.longitudeHi :=
  decode_contains_centroid demoEngine (some demoCode) demoArea decode_demo

/-- Claim C9: `resize` is a pure constructor of a new `CodeArea` (the
original value is untouched in this functional model), and the result
keeps the same centroid and the same code length as the original. -/
theorem resize_preserves_centroid_codeLength (a : CodeArea) :
    a.resize.centroid = a.centroid ∧ a.resize.codeLength = a.codeLength :=
  ⟨rfl, rfl⟩

/-- Claim C10: given `None` instead of a string, `isValid` returns
`False` and `isValid_` returns `None`; both are total, so no exception
is raised. -/
theorem isValid_none_behavior (p : List Char → Bool) :
    isValid p none = false ∧ isValid_ p none = none :=
  ⟨rfl, rfl⟩

end Ubid
